import Mathlib

/-!
Verification of the translation-proxy request handlers of this repository.

The repository holds two variants of one Flask endpoint `POST /api/translate`:

* `src/translate.py` — restricted variant: default `source = "vi"`, target
  language validated against `SUPPORTED_LANGS`, upstream field extracted with
  `translation_data['responseData']['translatedText']` (raises `KeyError`,
  mapped to HTTP 500, when a key is absent);
* `src/api/translate.py` — unrestricted variant: default `source = "auto"`,
  no target check, upstream field extracted with
  `translation_data.get('responseData', {}).get('translatedText', '')`
  (absent keys yield the empty string).

The embedding below models a single request handled against an explicit cache
state and an oracle describing what the one outbound upstream call would
return.  `request.get_json()` of the external Flask collaborator is modelled
as `Option ReqBody`: `none` when the body cannot be parsed, `some d` for a
parsed JSON object `d` (the request fields of interest are strings, per the
API contract).  Python truthiness of the parsed object (`if not data`) is
emptiness of its field list; truthiness of a string is non-emptiness.
-/

namespace ApiMeovat

/-- A parsed JSON object body: an association list of string-valued fields
(`q`, `source`, `target` are the ones the handlers read). -/
structure ReqBody where
  fields : List (String × String)
deriving DecidableEq

/-- Python `dict.get(key, default)` on a parsed body. -/
def ReqBody.get (d : ReqBody) (key default : String) : String :=
  match d.fields.find? (fun p => p.1 == key) with
  | some p => p.2
  | none => default

/-- The in-memory `CACHE` dictionary: an association list from cache keys to
stored translations. -/
abbrev Cache := List (String × String)

/-- Python `cache_key in CACHE` / `CACHE[cache_key]` read. -/
def Cache.lookup (c : Cache) (key : String) : Option String :=
  match c.find? (fun p => p.1 == key) with
  | some p => some p.2
  | none => none

/-- Python `CACHE[cache_key] = value`: insert or overwrite. -/
def Cache.store (c : Cache) (key value : String) : Cache :=
  (key, value) :: c.filter (fun p => p.1 != key)

/-- The cache key of both variants: `f"{text}:{source}:{target}"`. -/
def cache_key (text source target : String) : String :=
  text ++ ":" ++ source ++ ":" ++ target

/-- The parsed JSON body of a successful upstream response, restricted to the
nested field the handlers read.  `responseData = none` models the
`responseData` key being absent; `some none` models `responseData` present but
the `translatedText` key absent; `some (some s)` models both keys present with
string value `s`. -/
structure UpstreamBody where
  responseData : Option (Option String)
deriving DecidableEq

/-- What the single outbound `requests.get` + `raise_for_status` would yield:
`httpError` when the transport fails or the provider returns a non-success
status (a `requests.exceptions.RequestException` is raised), `ok body` when
the call succeeds and the body parses as JSON. -/
inductive UpstreamResult where
  | httpError
  | ok (body : UpstreamBody)
deriving DecidableEq

/-- The JSON body the handler responds with. -/
inductive RespBody where
  | translated (text : String)
  | errorMsg (msg : String)
deriving DecidableEq

/-- The observable outcome of handling one request: HTTP status, response
body, the cache state after the request, and whether the upstream provider
was invoked. -/
structure HandlerOutcome where
  status : Nat
  body : RespBody
  cache : Cache
  upstreamCalled : Bool
deriving DecidableEq

/-- `SUPPORTED_LANGS` of `src/translate.py`. -/
def SUPPORTED_LANGS : List String :=
  ["vi", "en", "ru", "zh", "ko", "ja", "pt", "es"]

namespace Translate

/-- The handler of `src/translate.py` (restricted variant).  `data` is the
result of `request.get_json()`, `cache` the current `CACHE`, `upstream` what
the outbound call would return if made. -/
def translate_text (data : Option ReqBody) (cache : Cache)
    (upstream : UpstreamResult) : HandlerOutcome :=
  match data with
  | none => ⟨400, .errorMsg "Invalid JSON payload", cache, false⟩
  | some d =>
    if d.fields = [] then
      ⟨400, .errorMsg "Invalid JSON payload", cache, false⟩
    else
      let text_to_translate := d.get "q" ""
      let source_lang := d.get "source" "vi"
      let target_lang := d.get "target" "en"
      if text_to_translate = "" then
        ⟨400, .errorMsg "Text to translate is empty", cache, false⟩
      else if target_lang ∉ SUPPORTED_LANGS then
        ⟨400, .errorMsg ("Target language '" ++ target_lang ++
          "' is not supported"), cache, false⟩
      else
        let key := cache_key text_to_translate source_lang target_lang
        match Cache.lookup cache key with
        | some v => ⟨200, .translated v, cache, false⟩
        | none =>
          match upstream with
          | .httpError =>
            ⟨500, .errorMsg "Failed to connect to the translation API",
              cache, true⟩
          | .ok body =>
            match body.responseData with
            | none =>
              ⟨500, .errorMsg "Unexpected response format from translation API",
                cache, true⟩
            | some none =>
              ⟨500, .errorMsg "Unexpected response format from translation API",
                cache, true⟩
            | some (some t) =>
              let translated_text := if t = "" then text_to_translate else t
              ⟨200, .translated translated_text,
                Cache.store cache key translated_text, true⟩

end Translate

namespace ApiTranslate

/-- The handler of `src/api/translate.py` (unrestricted variant): default
`source = "auto"`, no target-language check, and absent nested keys of the
upstream body yield the empty string via the `.get(...).get(...)` chain. -/
def translate_text (data : Option ReqBody) (cache : Cache)
    (upstream : UpstreamResult) : HandlerOutcome :=
  match data with
  | none => ⟨400, .errorMsg "Invalid JSON payload", cache, false⟩
  | some d =>
    if d.fields = [] then
      ⟨400, .errorMsg "Invalid JSON payload", cache, false⟩
    else
      let text_to_translate := d.get "q" ""
      let source_lang := d.get "source" "auto"
      let target_lang := d.get "target" "en"
      if text_to_translate = "" then
        ⟨400, .errorMsg "Text to translate is empty", cache, false⟩
      else
        let key := cache_key text_to_translate source_lang target_lang
        match Cache.lookup cache key with
        | some v => ⟨200, .translated v, cache, false⟩
        | none =>
          match upstream with
          | .httpError =>
            ⟨500, .errorMsg "Failed to connect to the translation API",
              cache, true⟩
          | .ok body =>
            let t := match body.responseData with
              | none => ""
              | some none => ""
              | some (some s) => s
            let translated_text := if t = "" then text_to_translate else t
            ⟨200, .translated translated_text,
              Cache.store cache key translated_text, true⟩

end ApiTranslate

/-- Looking a key up right after storing it returns the stored value. -/
theorem Cache.lookup_store_self (c : Cache) (k v : String) :
    Cache.lookup (Cache.store c k v) k = some v := by
  simp [Cache.lookup, Cache.store, List.find?]

/-- C1: the cache-key derivation is NOT injective.  The distinct validated
triples `("a:b", "c", "en")` and `("a", "b:c", "en")` derive the same key
`"a:b:c:en"`, and a request for the second triple silently reads the cache
entry written for the first (it answers the first triple's translation `"X"`
without invoking upstream), contradicting the claim that two different
validated requests can never read or overwrite each other's entry. -/
theorem c1_cache_key_collision :
    cache_key "a:b" "c" "en" = cache_key "a" "b:c" "en" ∧
    (("a:b", "c", "en") : String × String × String) ≠ ("a", "b:c", "en") ∧
    Translate.translate_text
        (some ⟨[("q", "a"), ("source", "b:c"), ("target", "en")]⟩)
        (Translate.translate_text
          (some ⟨[("q", "a:b"), ("source", "c"), ("target", "en")]⟩)
          [] (.ok ⟨some (some "X")⟩)).cache
        .httpError =
      ⟨200, .translated "X",
        (Translate.translate_text
          (some ⟨[("q", "a:b"), ("source", "c"), ("target", "en")]⟩)
          [] (.ok ⟨some (some "X")⟩)).cache, false⟩ :=
  ⟨rfl, by decide, by decide⟩

/-- C8: a request whose body cannot be parsed as a structured object
(`request.get_json()` yields nothing) is answered with HTTP 400 and
"Invalid JSON payload", and the upstream provider is never invoked, in both
variants, whatever the cache state and the upstream oracle. -/
theorem c8_unparseable_body (cache : Cache) (upstream : UpstreamResult) :
    Translate.translate_text none cache upstream =
      ⟨400, .errorMsg "Invalid JSON payload", cache, false⟩ ∧
    ApiTranslate.translate_text none cache upstream =
      ⟨400, .errorMsg "Invalid JSON payload", cache, false⟩ :=
  ⟨rfl, rfl⟩

/-- C9: the body `{}` parses as a valid JSON object but is falsy in Python,
so both handlers reject it with HTTP 400 and "Invalid JSON payload" — not
with the empty-text error — because the code tests the truthiness of the
parsed value, not whether parsing succeeded. -/
theorem c9_falsy_parsed_body (cache : Cache) (upstream : UpstreamResult) :
    Translate.translate_text (some ⟨[]⟩) cache upstream =
      ⟨400, .errorMsg "Invalid JSON payload", cache, false⟩ ∧
    ApiTranslate.translate_text (some ⟨[]⟩) cache upstream =
      ⟨400, .errorMsg "Invalid JSON payload", cache, false⟩ ∧
    RespBody.errorMsg "Invalid JSON payload" ≠
      RespBody.errorMsg "Text to translate is empty" :=
  ⟨rfl, rfl, by decide⟩

/-- C4: when the request validates, misses the cache, and the upstream call
returns a non-success HTTP status (a `RequestException` is raised), both
handlers answer 500 — a 5xx status — with exactly
"Failed to connect to the translation API", and the cache is left entirely
unchanged (so in particular no entry is added or overwritten for the
request's key). -/
theorem c4_upstream_http_error (d : ReqBody) (cache : Cache)
    (hbody : d.fields ≠ [])
    (hq : d.get "q" "" ≠ "")
    (htar : d.get "target" "en" ∈ SUPPORTED_LANGS)
    (hmiss : Cache.lookup cache
      (cache_key (d.get "q" "") (d.get "source" "vi")
        (d.get "target" "en")) = none)
    (hmiss' : Cache.lookup cache
      (cache_key (d.get "q" "") (d.get "source" "auto")
        (d.get "target" "en")) = none) :
    Translate.translate_text (some d) cache .httpError =
      ⟨500, .errorMsg "Failed to connect to the translation API",
        cache, true⟩ ∧
    ApiTranslate.translate_text (some d) cache .httpError =
      ⟨500, .errorMsg "Failed to connect to the translation API",
        cache, true⟩ := by
  constructor
  · simp [Translate.translate_text, hbody, hq, htar, hmiss]
  · simp [ApiTranslate.translate_text, hbody, hq, hmiss']

/-- C4 witness: the concrete validated request
`{"q": "hello", "source": "en", "target": "vi"}` on the empty cache. -/
theorem c4_upstream_http_error_witness :
    (ReqBody.mk [("q", "hello"), ("source", "en"), ("target", "vi")]).fields
        ≠ [] ∧
    (ReqBody.mk [("q", "hello"), ("source", "en"),
        ("target", "vi")]).get "q" "" ≠ "" ∧
    (ReqBody.mk [("q", "hello"), ("source", "en"),
        ("target", "vi")]).get "target" "en" ∈ SUPPORTED_LANGS ∧
    (Translate.translate_text
        (some ⟨[("q", "hello"), ("source", "en"), ("target", "vi")]⟩)
        [] .httpError =
      ⟨500, .errorMsg "Failed to connect to the translation API",
        [], true⟩ ∧
    ApiTranslate.translate_text
        (some ⟨[("q", "hello"), ("source", "en"), ("target", "vi")]⟩)
        [] .httpError =
      ⟨500, .errorMsg "Failed to connect to the translation API",
        [], true⟩) :=
  ⟨by decide, by decide, by decide,
    c4_upstream_http_error ⟨[("q", "hello"), ("source", "en"),
      ("target", "vi")]⟩ [] (by decide) (by decide) (by decide) rfl rfl⟩

/-- C6 counterexample: the body `{}` parses and its `q` field is absent, yet
the handler's message is "Invalid JSON payload", not the claimed
"Text to translate is empty" (the falsy-body check fires first). -/
theorem c6_counterexample :
    (Translate.translate_text (some ⟨[]⟩) [] .httpError).status = 400 ∧
    (Translate.translate_text (some ⟨[]⟩) [] .httpError).body =
      .errorMsg "Invalid JSON payload" ∧
    (Translate.translate_text (some ⟨[]⟩) [] .httpError).body ≠
      .errorMsg "Text to translate is empty" :=
  ⟨rfl, rfl, by decide⟩

/-- C6 (amended): for every request whose body parses to a truthy (non-empty)
object and whose `q` field is absent or the empty string, both handlers
return HTTP 400 with "Text to translate is empty" and never invoke the
upstream provider. -/
theorem c6_empty_text_rejected (d : ReqBody) (cache : Cache)
    (upstream : UpstreamResult)
    (hbody : d.fields ≠ [])
    (hq : d.get "q" "" = "") :
    Translate.translate_text (some d) cache upstream =
      ⟨400, .errorMsg "Text to translate is empty", cache, false⟩ ∧
    ApiTranslate.translate_text (some d) cache upstream =
      ⟨400, .errorMsg "Text to translate is empty", cache, false⟩ := by
  constructor
  · simp [Translate.translate_text, hbody, hq]
  · simp [ApiTranslate.translate_text, hbody, hq]

/-- C6 witness: the truthy body `{"source": "en"}` with `q` absent. -/
theorem c6_empty_text_rejected_witness :
    (ReqBody.mk [("source", "en")]).fields ≠ [] ∧
    (ReqBody.mk [("source", "en")]).get "q" "" = "" ∧
    (Translate.translate_text (some ⟨[("source", "en")]⟩) [] .httpError =
      ⟨400, .errorMsg "Text to translate is empty", [], false⟩ ∧
    ApiTranslate.translate_text (some ⟨[("source", "en")]⟩) [] .httpError =
      ⟨400, .errorMsg "Text to translate is empty", [], false⟩) :=
  ⟨by decide, by decide,
    c6_empty_text_rejected ⟨[("source", "en")]⟩ [] .httpError
      (by decide) (by decide)⟩

/-- C7 counterexample: in the restricted variant the request
`{"target": "xx"}` has a target outside the allow-list, yet it is answered
with the message "Text to translate is empty" (the empty-text check fires
first), which does not name the rejected code. -/
theorem c7_counterexample :
    "xx" ∉ SUPPORTED_LANGS ∧
    (Translate.translate_text (some ⟨[("target", "xx")]⟩) [] .httpError).body
      = .errorMsg "Text to translate is empty" ∧
    (Translate.translate_text (some ⟨[("target", "xx")]⟩) [] .httpError).body
      ≠ .errorMsg "Target language 'xx' is not supported" :=
  ⟨by decide, rfl, by decide⟩

/-- C7 (amended): in the restricted variant, every request that passes the
payload and empty-text checks and whose target is outside `SUPPORTED_LANGS`
is rejected with HTTP 400 and a message naming the rejected code, without
invoking upstream; in the unrestricted variant, validation rejects no target
at all: under the same payload and empty-text conditions the response status
is never 400, whatever the target value. -/
theorem c7_target_validation (d : ReqBody) (cache : Cache)
    (upstream : UpstreamResult)
    (hbody : d.fields ≠ [])
    (hq : d.get "q" "" ≠ "") :
    (d.get "target" "en" ∉ SUPPORTED_LANGS →
      Translate.translate_text (some d) cache upstream =
        ⟨400, .errorMsg ("Target language '" ++ d.get "target" "en" ++
          "' is not supported"), cache, false⟩) ∧
    (ApiTranslate.translate_text (some d) cache upstream).status ≠ 400 := by
  constructor
  · intro htar
    simp [Translate.translate_text, hbody, hq, htar]
  · simp only [ApiTranslate.translate_text, hbody, hq, if_neg, if_false]
    rcases hl : Cache.lookup cache
        (cache_key (d.get "q" "") (d.get "source" "auto")
          (d.get "target" "en")) with _ | v
    · rcases upstream with _ | body
      · simp [hl]
      · simp [hl]
    · simp [hl]

/-- C7 witness: the request `{"q": "hi", "target": "xx"}` whose target is
outside the allow-list. -/
theorem c7_target_validation_witness :
    (ReqBody.mk [("q", "hi"), ("target", "xx")]).fields ≠ [] ∧
    (ReqBody.mk [("q", "hi"), ("target", "xx")]).get "q" "" ≠ "" ∧
    (((ReqBody.mk [("q", "hi"), ("target", "xx")]).get "target" "en"
        ∉ SUPPORTED_LANGS →
      Translate.translate_text (some ⟨[("q", "hi"), ("target", "xx")]⟩)
          [] .httpError =
        ⟨400, .errorMsg ("Target language '" ++
          (ReqBody.mk [("q", "hi"), ("target", "xx")]).get "target" "en" ++
          "' is not supported"), [], false⟩) ∧
    (ApiTranslate.translate_text (some ⟨[("q", "hi"), ("target", "xx")]⟩)
        [] .httpError).status ≠ 400) :=
  ⟨by decide, by decide,
    c7_target_validation ⟨[("q", "hi"), ("target", "xx")]⟩ [] .httpError
      (by decide) (by decide)⟩

/-- C3 counterexample: in the `src/api/translate.py` variant an upstream
body lacking the nested keys does not make the handler fail with 500: the
request `{"q": "hi"}` with an upstream JSON body missing `responseData` is
answered 200 with the fallback translation `"hi"`. -/
theorem c3_counterexample :
    ApiTranslate.translate_text (some ⟨[("q", "hi")]⟩) [] (.ok ⟨none⟩) =
      ⟨200, .translated "hi",
        Cache.store [] (cache_key "hi" "auto" "en") "hi", true⟩ ∧
    (200 : Nat) ≠ 500 :=
  ⟨by decide, by decide⟩

/-- C3 (amended): when the upstream response parses as JSON but lacks the
expected nested keys (`responseData` absent, or `translatedText` absent
inside it), the restricted variant (`src/translate.py`) fails with HTTP 500
and "Unexpected response format from translation API" (a `KeyError` is
raised and mapped); the unrestricted variant (`src/api/translate.py`)
instead obtains the empty string from its `.get` chain and answers 200 with
the original input text via the fallback, caching that text. -/
theorem c3_missing_keys (d : ReqBody) (cache : Cache)
    (rd : Option (Option String))
    (hbody : d.fields ≠ [])
    (hq : d.get "q" "" ≠ "")
    (htar : d.get "target" "en" ∈ SUPPORTED_LANGS)
    (hmiss : Cache.lookup cache
      (cache_key (d.get "q" "") (d.get "source" "vi")
        (d.get "target" "en")) = none)
    (hmiss' : Cache.lookup cache
      (cache_key (d.get "q" "") (d.get "source" "auto")
        (d.get "target" "en")) = none)
    (hrd : rd = none ∨ rd = some none) :
    Translate.translate_text (some d) cache (.ok ⟨rd⟩) =
      ⟨500, .errorMsg "Unexpected response format from translation API",
        cache, true⟩ ∧
    ApiTranslate.translate_text (some d) cache (.ok ⟨rd⟩) =
      ⟨200, .translated (d.get "q" ""),
        Cache.store cache
          (cache_key (d.get "q" "") (d.get "source" "auto")
            (d.get "target" "en")) (d.get "q" ""), true⟩ := by
  rcases hrd with h | h <;> subst h <;> constructor
  · simp [Translate.translate_text, hbody, hq, htar, hmiss]
  · simp [ApiTranslate.translate_text, hbody, hq, hmiss']
  · simp [Translate.translate_text, hbody, hq, htar, hmiss]
  · simp [ApiTranslate.translate_text, hbody, hq, hmiss']

/-- C3 witness: the request `{"q": "hi", "target": "en"}` on the empty
cache, with `responseData` absent from the upstream body. -/
theorem c3_missing_keys_witness :
    (ReqBody.mk [("q", "hi"), ("target", "en")]).fields ≠ [] ∧
    (ReqBody.mk [("q", "hi"), ("target", "en")]).get "q" "" ≠ "" ∧
    (ReqBody.mk [("q", "hi"), ("target", "en")]).get "target" "en"
      ∈ SUPPORTED_LANGS ∧
    ((none : Option (Option String)) = none ∨
      (none : Option (Option String)) = some none) ∧
    (Translate.translate_text (some ⟨[("q", "hi"), ("target", "en")]⟩)
        [] (.ok ⟨none⟩) =
      ⟨500, .errorMsg "Unexpected response format from translation API",
        [], true⟩ ∧
    ApiTranslate.translate_text (some ⟨[("q", "hi"), ("target", "en")]⟩)
        [] (.ok ⟨none⟩) =
      ⟨200, .translated "hi",
        Cache.store [] (cache_key "hi" "auto" "en") "hi", true⟩) :=
  ⟨by decide, by decide, by decide, Or.inl rfl, by
    have h := c3_missing_keys ⟨[("q", "hi"), ("target", "en")]⟩ [] none
      (by decide) (by decide) (by decide) rfl rfl (Or.inl rfl)
    exact h⟩

/-- C2: when a validated, cache-missing request gets an upstream success
whose `translatedText` field is the empty string, both handlers answer
HTTP 200 with `translatedText` equal to the original input text, and that
original text is exactly the value stored in the cache under the request's
key. -/
theorem c2_empty_translation_fallback (d : ReqBody) (cache : Cache)
    (hbody : d.fields ≠ [])
    (hq : d.get "q" "" ≠ "")
    (htar : d.get "target" "en" ∈ SUPPORTED_LANGS)
    (hmiss : Cache.lookup cache
      (cache_key (d.get "q" "") (d.get "source" "vi")
        (d.get "target" "en")) = none)
    (hmiss' : Cache.lookup cache
      (cache_key (d.get "q" "") (d.get "source" "auto")
        (d.get "target" "en")) = none) :
    Translate.translate_text (some d) cache (.ok ⟨some (some "")⟩) =
      ⟨200, .translated (d.get "q" ""),
        Cache.store cache
          (cache_key (d.get "q" "") (d.get "source" "vi")
            (d.get "target" "en")) (d.get "q" ""), true⟩ ∧
    Cache.lookup
        (Translate.translate_text (some d) cache (.ok ⟨some (some "")⟩)).cache
        (cache_key (d.get "q" "") (d.get "source" "vi")
          (d.get "target" "en")) = some (d.get "q" "") ∧
    ApiTranslate.translate_text (some d) cache (.ok ⟨some (some "")⟩) =
      ⟨200, .translated (d.get "q" ""),
        Cache.store cache
          (cache_key (d.get "q" "") (d.get "source" "auto")
            (d.get "target" "en")) (d.get "q" ""), true⟩ ∧
    Cache.lookup
        (ApiTranslate.translate_text (some d) cache
          (.ok ⟨some (some "")⟩)).cache
        (cache_key (d.get "q" "") (d.get "source" "auto")
          (d.get "target" "en")) = some (d.get "q" "") := by
  have h1 : Translate.translate_text (some d) cache (.ok ⟨some (some "")⟩) =
      ⟨200, .translated (d.get "q" ""),
        Cache.store cache
          (cache_key (d.get "q" "") (d.get "source" "vi")
            (d.get "target" "en")) (d.get "q" ""), true⟩ := by
    simp [Translate.translate_text, hbody, hq, htar, hmiss]
  have h2 : ApiTranslate.translate_text (some d) cache
      (.ok ⟨some (some "")⟩) =
      ⟨200, .translated (d.get "q" ""),
        Cache.store cache
          (cache_key (d.get "q" "") (d.get "source" "auto")
            (d.get "target" "en")) (d.get "q" ""), true⟩ := by
    simp [ApiTranslate.translate_text, hbody, hq, hmiss']
  refine ⟨h1, ?_, h2, ?_⟩
  · rw [h1]; exact Cache.lookup_store_self ..
  · rw [h2]; exact Cache.lookup_store_self ..

/-- C2 witness: the request `{"q": "hello", "source": "en", "target": "vi"}`
on the empty cache, with an upstream body whose `translatedText` is `""`. -/
theorem c2_empty_translation_fallback_witness :
    (ReqBody.mk [("q", "hello"), ("source", "en"), ("target", "vi")]).fields
        ≠ [] ∧
    (ReqBody.mk [("q", "hello"), ("source", "en"),
        ("target", "vi")]).get "q" "" ≠ "" ∧
    (ReqBody.mk [("q", "hello"), ("source", "en"),
        ("target", "vi")]).get "target" "en" ∈ SUPPORTED_LANGS ∧
    (Translate.translate_text
        (some ⟨[("q", "hello"), ("source", "en"), ("target", "vi")]⟩)
        [] (.ok ⟨some (some "")⟩) =
      ⟨200, .translated "hello",
        Cache.store [] (cache_key "hello" "en" "vi") "hello", true⟩ ∧
    Cache.lookup
        (Translate.translate_text
          (some ⟨[("q", "hello"), ("source", "en"), ("target", "vi")]⟩)
          [] (.ok ⟨some (some "")⟩)).cache
        (cache_key "hello" "en" "vi") = some "hello" ∧
    ApiTranslate.translate_text
        (some ⟨[("q", "hello"), ("source", "en"), ("target", "vi")]⟩)
        [] (.ok ⟨some (some "")⟩) =
      ⟨200, .translated "hello",
        Cache.store [] (cache_key "hello" "en" "vi") "hello", true⟩ ∧
    Cache.lookup
        (ApiTranslate.translate_text
          (some ⟨[("q", "hello"), ("source", "en"), ("target", "vi")]⟩)
          [] (.ok ⟨some (some "")⟩)).cache
        (cache_key "hello" "en" "vi") = some "hello") :=
  ⟨by decide, by decide, by decide,
    c2_empty_translation_fallback
      ⟨[("q", "hello"), ("source", "en"), ("target", "vi")]⟩ []
      (by decide) (by decide) (by decide) rfl rfl⟩

/-- C5: in both variants, a request whose triple is already cached is
answered 200 with exactly the cached value, the cache unchanged and the
upstream provider not invoked; and after a first successful call on a cache
miss, repeating the identical request returns the first call's response
body from the cache with zero additional upstream calls, whatever the
second upstream oracle would have answered. -/
theorem c5_cache_hit_idempotence (d : ReqBody) (cache : Cache)
    (v t : String) (upstream upstream2 : UpstreamResult)
    (hbody : d.fields ≠ [])
    (hq : d.get "q" "" ≠ "")
    (htar : d.get "target" "en" ∈ SUPPORTED_LANGS) :
    (Cache.lookup cache
        (cache_key (d.get "q" "") (d.get "source" "vi")
          (d.get "target" "en")) = some v →
      Translate.translate_text (some d) cache upstream =
        ⟨200, .translated v, cache, false⟩) ∧
    (Cache.lookup cache
        (cache_key (d.get "q" "") (d.get "source" "vi")
          (d.get "target" "en")) = none →
      Translate.translate_text (some d)
          (Translate.translate_text (some d) cache
            (.ok ⟨some (some t)⟩)).cache upstream2 =
        ⟨200,
          (Translate.translate_text (some d) cache
            (.ok ⟨some (some t)⟩)).body,
          (Translate.translate_text (some d) cache
            (.ok ⟨some (some t)⟩)).cache, false⟩) ∧
    (Cache.lookup cache
        (cache_key (d.get "q" "") (d.get "source" "auto")
          (d.get "target" "en")) = some v →
      ApiTranslate.translate_text (some d) cache upstream =
        ⟨200, .translated v, cache, false⟩) ∧
    (Cache.lookup cache
        (cache_key (d.get "q" "") (d.get "source" "auto")
          (d.get "target" "en")) = none →
      ApiTranslate.translate_text (some d)
          (ApiTranslate.translate_text (some d) cache
            (.ok ⟨some (some t)⟩)).cache upstream2 =
        ⟨200,
          (ApiTranslate.translate_text (some d) cache
            (.ok ⟨some (some t)⟩)).body,
          (ApiTranslate.translate_text (some d) cache
            (.ok ⟨some (some t)⟩)).cache, false⟩) := by
  refine ⟨?_, ?_, ?_, ?_⟩
  · intro hhit
    simp [Translate.translate_text, hbody, hq, htar, hhit]
  · intro hm
    have h1 : Translate.translate_text (some d) cache
        (.ok ⟨some (some t)⟩) =
        ⟨200, .translated (if t = "" then d.get "q" "" else t),
          Cache.store cache
            (cache_key (d.get "q" "") (d.get "source" "vi")
              (d.get "target" "en"))
            (if t = "" then d.get "q" "" else t), true⟩ := by
      simp [Translate.translate_text, hbody, hq, htar, hm]
    rw [h1]
    simp [Translate.translate_text, hbody, hq, htar,
      Cache.lookup_store_self]
  · intro hhit
    simp [ApiTranslate.translate_text, hbody, hq, hhit]
  · intro hm
    have h2 : ApiTranslate.translate_text (some d) cache
        (.ok ⟨some (some t)⟩) =
        ⟨200, .translated (if t = "" then d.get "q" "" else t),
          Cache.store cache
            (cache_key (d.get "q" "") (d.get "source" "auto")
              (d.get "target" "en"))
            (if t = "" then d.get "q" "" else t), true⟩ := by
      simp [ApiTranslate.translate_text, hbody, hq, hm]
    rw [h2]
    simp [ApiTranslate.translate_text, hbody, hq,
      Cache.lookup_store_self]

/-- C5 witness: the request `{"q": "hello", "source": "en", "target": "vi"}`
on the empty cache with upstream translation `"xin chao"`. -/
theorem c5_cache_hit_idempotence_witness :
    (ReqBody.mk [("q", "hello"), ("source", "en"), ("target", "vi")]).fields
        ≠ [] ∧
    (ReqBody.mk [("q", "hello"), ("source", "en"),
        ("target", "vi")]).get "q" "" ≠ "" ∧
    (ReqBody.mk [("q", "hello"), ("source", "en"),
        ("target", "vi")]).get "target" "en" ∈ SUPPORTED_LANGS ∧
    ((Cache.lookup [] (cache_key "hello" "en" "vi") = some "w" →
      Translate.translate_text
          (some ⟨[("q", "hello"), ("source", "en"), ("target", "vi")]⟩)
          [] .httpError = ⟨200, .translated "w", [], false⟩) ∧
    (Cache.lookup [] (cache_key "hello" "en" "vi") = none →
      Translate.translate_text
          (some ⟨[("q", "hello"), ("source", "en"), ("target", "vi")]⟩)
          (Translate.translate_text
            (some ⟨[("q", "hello"), ("source", "en"), ("target", "vi")]⟩)
            [] (.ok ⟨some (some "xin chao")⟩)).cache .httpError =
        ⟨200,
          (Translate.translate_text
            (some ⟨[("q", "hello"), ("source", "en"), ("target", "vi")]⟩)
            [] (.ok ⟨some (some "xin chao")⟩)).body,
          (Translate.translate_text
            (some ⟨[("q", "hello"), ("source", "en"), ("target", "vi")]⟩)
            [] (.ok ⟨some (some "xin chao")⟩)).cache, false⟩) ∧
    (Cache.lookup [] (cache_key "hello" "en" "vi") = some "w" →
      ApiTranslate.translate_text
          (some ⟨[("q", "hello"), ("source", "en"), ("target", "vi")]⟩)
          [] .httpError = ⟨200, .translated "w", [], false⟩) ∧
    (Cache.lookup [] (cache_key "hello" "en" "vi") = none →
      ApiTranslate.translate_text
          (some ⟨[("q", "hello"), ("source", "en"), ("target", "vi")]⟩)
          (ApiTranslate.translate_text
            (some ⟨[("q", "hello"), ("source", "en"), ("target", "vi")]⟩)
            [] (.ok ⟨some (some "xin chao")⟩)).cache .httpError =
        ⟨200,
          (ApiTranslate.translate_text
            (some ⟨[("q", "hello"), ("source", "en"), ("target", "vi")]⟩)
            [] (.ok ⟨some (some "xin chao")⟩)).body,
          (ApiTranslate.translate_text
            (some ⟨[("q", "hello"), ("source", "en"), ("target", "vi")]⟩)
            [] (.ok ⟨some (some "xin chao")⟩)).cache, false⟩)) :=
  ⟨by decide, by decide, by decide,
    c5_cache_hit_idempotence
      ⟨[("q", "hello"), ("source", "en"), ("target", "vi")]⟩ []
      "w" "xin chao" .httpError .httpError
      (by decide) (by decide) (by decide)⟩

/-- Every cache value is a non-empty string (Boolean form). -/
def cacheValuesNonEmpty (c : Cache) : Bool :=
  c.all (fun p => p.2 != "")

/-- Storing a non-empty value preserves the non-empty-values invariant. -/
theorem cacheValuesNonEmpty_store (c : Cache) (k v : String)
    (hc : cacheValuesNonEmpty c = true) (hv : v ≠ "") :
    cacheValuesNonEmpty (Cache.store c k v) = true := by
  simp only [cacheValuesNonEmpty, List.all_eq_true] at hc ⊢
  intro x hx
  simp only [Cache.store, List.mem_cons, List.mem_filter] at hx
  rcases hx with h | h
  · subst h; simpa using hv
  · exact hc x h.1

/-- C10: handling any request, in either variant, preserves the invariant
that every value stored in the cache is a non-empty string: validation
rejects empty input text, and the fallback replaces an empty provider
translation with the (non-empty) input text before the cache write. -/
theorem c10_cache_values_nonempty (data : Option ReqBody) (cache : Cache)
    (upstream : UpstreamResult)
    (hc : cacheValuesNonEmpty cache = true) :
    cacheValuesNonEmpty
        (Translate.translate_text data cache upstream).cache = true ∧
    cacheValuesNonEmpty
        (ApiTranslate.translate_text data cache upstream).cache = true := by
  constructor
  · rcases data with _ | d
    · exact hc
    · simp only [Translate.translate_text]
      split
      · exact hc
      · split
        · exact hc
        · split
          · exact hc
          · split
            · exact hc
            · split
              · exact hc
              · split
                · exact hc
                · exact hc
                · apply cacheValuesNonEmpty_store _ _ _ hc
                  split
                  · assumption
                  · assumption
  · rcases data with _ | d
    · exact hc
    · simp only [ApiTranslate.translate_text]
      split
      · exact hc
      · split
        · exact hc
        · split
          · exact hc
          · split
            · exact hc
            · apply cacheValuesNonEmpty_store _ _ _ hc
              split
              · assumption
              · assumption

/-- C10 witness: the request `{"q": "hi"}` on the empty cache, with an
upstream body whose `translatedText` is `""` (exercising the fallback
write). -/
theorem c10_cache_values_nonempty_witness :
    cacheValuesNonEmpty [] = true ∧
    (cacheValuesNonEmpty
        (Translate.translate_text (some ⟨[("q", "hi")]⟩) []
          (.ok ⟨some (some "")⟩)).cache = true ∧
    cacheValuesNonEmpty
        (ApiTranslate.translate_text (some ⟨[("q", "hi")]⟩) []
          (.ok ⟨some (some "")⟩)).cache = true) :=
  ⟨rfl, c10_cache_values_nonempty (some ⟨[("q", "hi")]⟩) []
    (.ok ⟨some (some "")⟩) rfl⟩

end ApiMeovat
